import Mathlib

/-!
Verification of the NRI setup-network plugin (src/plugins/setupnetwork/plugin.go).

The repository carries two observed variants of the plugin side by side:
a static-table variant, whose PreSetupNetwork resolves a pod QoS class
through a fixed in-process bandwidth table, and an embedded-table variant,
whose PreSetupNetwork parses a QoS table out of each CNI config blob.
Both are embedded below, together with the Configure handler and the JSON
encoding of bandwidth values used for the "bandwidth" capability payload.
-/

namespace SetupNetwork

/-- Association-list lookup, first match wins.  Models Go map indexing
(Go maps have unique keys, so the first match is the only match). -/
def lookupKV {α : Type} : String → List (String × α) → Option α
  | _, [] => none
  | k, (k', v) :: rest => if k' = k then some v else lookupKV k rest

/-- Association-list update.  Models the Go map assignment m[k] = v. -/
def insertKV {α : Type} (k : String) (v : α) : List (String × α) → List (String × α)
  | [] => [(k, v)]
  | (k', v') :: rest => if k' = k then (k, v) :: rest else (k', v') :: insertKV k v rest

/-- Last element of a list, if any. -/
def olast {α : Type} : List α → Option α
  | [] => none
  | [a] => some a
  | _ :: b :: t => olast (b :: t)

/-- cni.BandWidth (external dependency github.com/containerd/go-cni):
four non-negative integer rate/burst fields (uint64 in Go, Nat here;
the plugin never performs arithmetic on them, so no overflow arises). -/
structure BandWidth where
  ingressRate : Nat
  ingressBurst : Nat
  egressRate : Nat
  egressBurst : Nat
deriving DecidableEq

/-- JSON documents, flattened to the shapes relevant to this plugin:
json.Marshal of a cni.BandWidth value produces a flat object of
non-negative integer fields, json.Marshal of a nil *cni.BandWidth
produces null, and the str constructor stands for any other document a
decoder may be handed (a type error for a BandWidth target). -/
inductive Jval where
  | null
  | str (s : String)
  | obj (fields : List (String × Nat))
deriving DecidableEq

/-- json.Marshal of a cni.BandWidth value: a flat JSON object carrying
the four tagged fields. -/
def marshalBandWidth (b : BandWidth) : Jval :=
  Jval.obj [("ingressRate", b.ingressRate), ("ingressBurst", b.ingressBurst),
            ("egressRate", b.egressRate), ("egressBurst", b.egressBurst)]

/-- json.Marshal of a *cni.BandWidth pointer: nil encodes as null. -/
def marshalOptBandWidth : Option BandWidth → Jval
  | none => Jval.null
  | some b => marshalBandWidth b

/-- json.Unmarshal of a capability payload into a zero cni.BandWidth:
absent fields keep their zero value, a JSON null leaves the struct
untouched (hence zero), and a non-object, non-null document is a type
error. -/
def unmarshalBandWidth : Jval → Option BandWidth
  | Jval.null => some ⟨0, 0, 0, 0⟩
  | Jval.str _ => none
  | Jval.obj fs =>
    some ⟨(lookupKV "ingressRate" fs).getD 0, (lookupKV "ingressBurst" fs).getD 0,
          (lookupKV "egressRate" fs).getD 0, (lookupKV "egressBurst" fs).getD 0⟩

/-- api.PodSandbox, restricted to the fields the plugin reads: the label
map and the annotation map (annos models pod.Annotations). -/
structure PodSandbox where
  labels : List (String × String)
  annos : List (String × String)
deriving DecidableEq

/-- Reserved label/annotation key for QoS class selection
(plugin.go line 87 / line 295). -/
def QoSResourceNet : String := "net"

/-- Static in-process bandwidth table of the static-table variant
(plugin.go lines 89 to 93). -/
def qosbandwidth : List (String × BandWidth) :=
  [("slow", ⟨100000, 150000, 0, 0⟩),
   ("normal", ⟨500000, 550000, 0, 0⟩),
   ("fast", ⟨1000000, 1500000, 0, 0⟩)]

/-- Fallback bandwidth of the static-table variant, used when the
resolved class is absent from the table (plugin.go lines 126 to 133). -/
def defaultBandWidth : BandWidth := ⟨450000, 1000000, 600000, 800000⟩

/-- One pass of the label or annotation scan of the static-table variant
(plugin.go lines 101 to 115): every pair whose key is the reserved key
overwrites the accumulator.  A Go map has unique keys, so at most one
pair matches. -/
def scanQoS : List (String × String) → String → String
  | [], q => q
  | kv :: rest, q => scanQoS rest (if kv.1 = QoSResourceNet then kv.2 else q)

/-- QoS class resolution of the static-table variant: scan the labels,
then the annotations, starting from the empty string. -/
def resolvedQoS1 (pod : PodSandbox) : String :=
  scanQoS pod.annos (scanQoS pod.labels "")

/-- api.CNIConfig as read by the static-table variant: a name and an
opaque configuration blob (only logged, never parsed there). -/
structure CNIConfig1 where
  name : String
  networkConf : String
deriving DecidableEq

/-- api.CNICapabilities as built by the static-table variant: each entry
carries its own freshly allocated capability map (caps is allocated
inside the loop, plugin.go line 124). -/
structure CNICapabilities1 where
  name : String
  capabilities : List (String × Jval)
deriving DecidableEq

/-- Loop body of the static-table PreSetupNetwork (plugin.go lines 117
to 144): resolve the bandwidth for the scanned class (table entry, or
the fixed default), marshal it, and append an entry per config; a
marshal error makes the whole call return nil capabilities and nil
error (line 137).  The serializer is a parameter so that the error
branch, unreachable for the concrete JSON encoder on this struct type,
can be stated about. -/
def psn1Loop (marshal : BandWidth → Except Unit Jval) (qos : String) :
    List CNIConfig1 → List CNICapabilities1 → List CNICapabilities1
  | [], acc => acc
  | c :: rest, acc =>
    match marshal ((lookupKV qos qosbandwidth).getD defaultBandWidth) with
    | Except.error _ => []
    | Except.ok j => psn1Loop marshal qos rest (acc ++ [⟨c.name, [("bandwidth", j)]⟩])

/-- Static-table PreSetupNetwork (plugin.go lines 95 to 147),
parameterized by the serializer. -/
def PreSetupNetwork1Gen (marshal : BandWidth → Except Unit Jval)
    (pod : PodSandbox) (cniconfigs : List CNIConfig1) : List CNICapabilities1 :=
  psn1Loop marshal (resolvedQoS1 pod) cniconfigs []

/-- The concrete serializer of the static-table variant: json.Marshal of
a cni.BandWidth value, which always succeeds. -/
def jsonMarshalBW (b : BandWidth) : Except Unit Jval := Except.ok (marshalBandWidth b)

/-- Static-table PreSetupNetwork with the concrete JSON serializer. -/
def PreSetupNetwork1 (pod : PodSandbox) (cniconfigs : List CNIConfig1) : List CNICapabilities1 :=
  PreSetupNetwork1Gen jsonMarshalBW pod cniconfigs

/-- CNIQoSClass of the embedded-table variant (plugin.go lines 284 to
288): a capacity ceiling and a *cni.BandWidth pointer (nil when the
JSON omits the field). -/
structure CNIQoSClass where
  capacity : Nat
  bandwidth : Option BandWidth
deriving DecidableEq

/-- Outcome of the qos field of one config blob for the CNIQoSConfig
struct the embedded-table variant decodes into.  Because the variant
reuses one qosconfig value across the whole loop (allocated once,
plugin.go line 301) and json.Unmarshal merges into an existing map,
the three well-formed cases act differently on the accumulated table:
a blob without a qos key leaves it unchanged, an explicit JSON null
resets it to nil, and an object merges its entries over the existing
ones key by key. -/
inductive QosField where
  | absent
  | null
  | table (t : List (String × CNIQoSClass))
deriving DecidableEq

/-- A config blob as seen through json.Unmarshal into CNIQoSConfig:
either syntactically invalid JSON (rejected by the validity pre-check,
mutating nothing), or a well-formed document with the given qos field.
The name field of CNIQoSConfig is never read, so it is not modeled. -/
inductive NetworkConf2 where
  | malformed
  | wellFormed (qos : QosField)
deriving DecidableEq

/-- api.CNIConfig as read by the embedded-table variant. -/
structure CNIConfig2 where
  name : String
  networkConf : NetworkConf2
deriving DecidableEq

/-- Effect of json.Unmarshal of one well-formed blob on the accumulated
QoS table of the reused qosconfig value (merge semantics of
encoding/json for maps). -/
def applyQosField (old : List (String × CNIQoSClass)) : QosField → List (String × CNIQoSClass)
  | QosField.absent => old
  | QosField.null => []
  | QosField.table t => t.foldl (fun acc kv => insertKV kv.1 kv.2 acc) old

/-- Mutable state of the embedded-table PreSetupNetwork loop: the QoS
table of the single reused qosconfig value, the single capability map
allocated once before the loop (plugin.go line 299) and therefore
shared by reference among all appended entries, and the names of the
entries appended so far.  A caps value of none models a nil byte slice
stored under the key. -/
structure LoopState where
  qosTable : List (String × CNIQoSClass)
  caps : List (String × Option Jval)
  names : List String
deriving DecidableEq

/-- Initial loop state: empty qosconfig, empty caps map, no entries. -/
def initState : LoopState := { qosTable := [], caps := [], names := [] }

/-- Loop body of the embedded-table PreSetupNetwork (plugin.go lines 322
to 344): skip the loopback config; skip a config whose blob fails to
parse; otherwise fold the blob's qos field into the accumulated table,
look the pod class up in it (a missing class yields the zero value,
whose bandwidth pointer is nil), marshal that pointer into the shared
caps map, and append an entry referencing the shared map; a marshal
error stores the nil result under the key and skips the append. -/
def step2 (marshal : Option BandWidth → Except Unit Jval) (qc : String)
    (s : LoopState) (c : CNIConfig2) : LoopState :=
  if c.name = "cni-loopback" then s
  else
    match c.networkConf with
    | NetworkConf2.malformed => s
    | NetworkConf2.wellFormed qf =>
      match marshal ((lookupKV qc (applyQosField s.qosTable qf)).bind CNIQoSClass.bandwidth) with
      | Except.error _ =>
        { qosTable := applyQosField s.qosTable qf,
          caps := insertKV "bandwidth" none s.caps,
          names := s.names }
      | Except.ok j =>
        { qosTable := applyQosField s.qosTable qf,
          caps := insertKV "bandwidth" (some j) s.caps,
          names := s.names ++ [c.name] }

/-- The embedded-table PreSetupNetwork loop over the config list. -/
def psn2Loop (marshal : Option BandWidth → Except Unit Jval) (qc : String) :
    List CNIConfig2 → LoopState → LoopState
  | [], s => s
  | c :: rest, s => psn2Loop marshal qc rest (step2 marshal qc s c)

/-- QoS class resolution of the embedded-table variant (plugin.go line
317): a plain annotation map read, yielding the empty string when the
key is absent.  The label map is not consulted. -/
def podQosClass (pod : PodSandbox) : String :=
  (lookupKV QoSResourceNet pod.annos).getD ""

/-- Embedded-table PreSetupNetwork (plugin.go lines 297 to 348),
parameterized by the serializer.  A pod without a class returns nil
capabilities (none); otherwise the reply is the list of appended entry
names together with the one capability map they all reference. -/
def PreSetupNetwork2Gen (marshal : Option BandWidth → Except Unit Jval)
    (pod : PodSandbox) (cniconfigs : List CNIConfig2) :
    Option (List String × List (String × Option Jval)) :=
  if podQosClass pod = "" then none
  else
    some ((psn2Loop marshal (podQosClass pod) cniconfigs initState).names,
          (psn2Loop marshal (podQosClass pod) cniconfigs initState).caps)

/-- The concrete serializer of the embedded-table variant: json.Marshal
of a *cni.BandWidth pointer, which always succeeds (nil encodes as
null). -/
def jsonMarshalOptBW (b : Option BandWidth) : Except Unit Jval :=
  Except.ok (marshalOptBandWidth b)

/-- Embedded-table PreSetupNetwork with the concrete JSON serializer. -/
def PreSetupNetwork2 (pod : PodSandbox) (cniconfigs : List CNIConfig2) :
    Option (List String × List (String × Option Jval)) :=
  PreSetupNetwork2Gen jsonMarshalOptBW pod cniconfigs

/-- Names of the entries of a PreSetupNetwork reply (nil reply: no
entries). -/
def resultNames (r : Option (List String × List (String × Option Jval))) : List String :=
  (r.map Prod.fst).getD []

/-- Per-config reading of the embedded-table loop, stated from the
spec's words for comparison with the shared-map code: each emitted
entry is paired with the bandwidth encoding resolved from its own
config at its own step (what the code would return had the caps map
been allocated per iteration).  Used to express what the shared map of
PreSetupNetwork2 collapses the payloads to. -/
def psn2PerConfigCaps (qc : String) : List CNIConfig2 → List (String × CNIQoSClass) → List (String × Jval)
  | [], _ => []
  | c :: rest, t =>
    if c.name = "cni-loopback" then psn2PerConfigCaps qc rest t
    else
      match c.networkConf with
      | NetworkConf2.malformed => psn2PerConfigCaps qc rest t
      | NetworkConf2.wellFormed qf =>
        (c.name, marshalOptBandWidth ((lookupKV qc (applyQosField t qf)).bind CNIQoSClass.bandwidth)) ::
          psn2PerConfigCaps qc rest (applyQosField t qf)

/-- Per-config skip reading of the embedded-table loop: the names of
exactly those configs that are not the loopback config, parse
successfully, and whose bandwidth serializes successfully; an error at
one config skips that config alone and the recursion continues with
the siblings. -/
def namesSpec (marshal : Option BandWidth → Except Unit Jval) (qc : String) :
    List CNIConfig2 → List (String × CNIQoSClass) → List String
  | [], _ => []
  | c :: rest, t =>
    if c.name = "cni-loopback" then namesSpec marshal qc rest t
    else
      match c.networkConf with
      | NetworkConf2.malformed => namesSpec marshal qc rest t
      | NetworkConf2.wellFormed qf =>
        match marshal ((lookupKV qc (applyQosField t qf)).bind CNIQoSClass.bandwidth) with
        | Except.error _ => namesSpec marshal qc rest (applyQosField t qf)
        | Except.ok _ => c.name :: namesSpec marshal qc rest (applyQosField t qf)

/-- The flat configuration struct of both variants (plugin.go lines 32
to 34): one recognized key. -/
structure GoConfig where
  cfgParam1 : String
deriving DecidableEq

/-- The configuration blob handed to Configure, seen together with the
verdict of the external YAML parser (sigs.k8s.io/yaml): the empty
string, or a non-empty document that either fails to parse or parses
to a flat key/value mapping. -/
inductive ConfigBlob where
  | emptyStr
  | nonEmpty (doc : Except Unit (List (String × String)))

/-- Decoding a parsed flat document into the config struct: only the
recognized key cfgParam1 is read, every other key is ignored, and an
absent key leaves the previous field value in place (merge semantics of
decoding into an existing struct). -/
def decodeConfig (kvs : List (String × String)) (c : GoConfig) : GoConfig :=
  { cfgParam1 := (lookupKV "cfgParam1" kvs).getD c.cfgParam1 }

/-- Configure (plugin.go lines 46 to 61 and 245 to 258): an empty blob
is accepted untouched, a parse failure aborts with an error, and a
well-formed blob is decoded into the config struct; the returned event
mask is always 0. -/
def Configure (blob : ConfigBlob) (c : GoConfig) : Except Unit (Nat × GoConfig) :=
  match blob with
  | ConfigBlob.emptyStr => Except.ok (0, c)
  | ConfigBlob.nonEmpty (Except.error _) => Except.error ()
  | ConfigBlob.nonEmpty (Except.ok kvs) => Except.ok (0, decodeConfig kvs c)

/-- Looking a key up right after storing it returns the stored value. -/
theorem lookupKV_insertKV_self {α : Type} (k : String) (v : α) (l : List (String × α)) :
    lookupKV k (insertKV k v l) = some v := by
  induction l with
  | nil => simp [insertKV, lookupKV]
  | cons kv rest ih =>
    by_cases h : kv.1 = k
    · simp [insertKV, lookupKV, h]
    · simp [insertKV, lookupKV, h, ih]

/-- Storing under a key twice keeps only the second value. -/
theorem insertKV_insertKV {α : Type} (k : String) (v1 v2 : α) (l : List (String × α)) :
    insertKV k v2 (insertKV k v1 l) = insertKV k v2 l := by
  induction l with
  | nil => simp [insertKV]
  | cons kv rest ih =>
    by_cases h : kv.1 = k
    · simp [insertKV, h]
    · simp [insertKV, h, ih]

/-- A key absent from the key list is not found. -/
theorem lookupKV_eq_none_of_not_mem {α : Type} (k : String) (l : List (String × α))
    (h : k ∉ l.map Prod.fst) : lookupKV k l = none := by
  induction l with
  | nil => rfl
  | cons kv rest ih =>
    simp only [List.map_cons, List.mem_cons] at h
    push_neg at h
    have hne : ¬kv.1 = k := fun he => h.1 he.symm
    simp [lookupKV, hne, ih h.2]

/-- Filtering an association list down to one key does not change what
that key looks up to. -/
theorem lookupKV_filter {α : Type} [DecidableEq α] (k : String) (l : List (String × α)) :
    lookupKV k (l.filter fun kv => kv.1 == k) = lookupKV k l := by
  induction l with
  | nil => rfl
  | cons kv rest ih =>
    by_cases h : kv.1 = k
    · simp [List.filter_cons, lookupKV, h, ih]
    · simp [List.filter_cons, lookupKV, h, ih]

/-- The last element of a nonempty list, in accumulator form. -/
theorem olast_cons {α : Type} (a : α) (l : List α) :
    olast (a :: l) = some ((olast l).getD a) := by
  induction l generalizing a with
  | nil => rfl
  | cons b t ih =>
    have h1 : olast (a :: b :: t) = olast (b :: t) := rfl
    rw [h1, ih b]
    simp

/-- A scan that meets no reserved key returns its accumulator. -/
theorem scanQoS_of_lookup_none (m : List (String × String)) :
    ∀ q : String, lookupKV QoSResourceNet m = none → scanQoS m q = q := by
  induction m with
  | nil => intro q _; rfl
  | cons kv rest ih =>
    intro q h
    by_cases hk : kv.1 = QoSResourceNet
    · simp [lookupKV, hk] at h
    · simp only [lookupKV, hk, if_false] at h
      simp [scanQoS, hk, ih q h]

/-- Over a map with unique keys, the scan returns exactly the value the
reserved key looks up to, whatever the accumulator was. -/
theorem scanQoS_of_lookup_some (m : List (String × String)) :
    ∀ (q v : String), (m.map Prod.fst).Nodup →
      lookupKV QoSResourceNet m = some v → scanQoS m q = v := by
  induction m with
  | nil => intro q v _ h; simp [lookupKV] at h
  | cons kv rest ih =>
    intro q v hnd h
    simp only [List.map_cons, List.nodup_cons] at hnd
    by_cases hk : kv.1 = QoSResourceNet
    · simp only [lookupKV, hk, if_true, Option.some.injEq] at h
      have hrest : lookupKV QoSResourceNet rest = none :=
        lookupKV_eq_none_of_not_mem _ _ (hk ▸ hnd.1)
      simp [scanQoS, hk, scanQoS_of_lookup_none rest _ hrest, h]
    · simp only [lookupKV, hk, if_false] at h
      simp [scanQoS, hk, ih q v hnd.2 h]

/-- When the serializer fails, the static-table loop aborts at the very
first config and returns nil, whatever had been accumulated. -/
theorem psn1Loop_error (marshal : BandWidth → Except Unit Jval) (qos : String)
    (c : CNIConfig1) (rest : List CNIConfig1) (acc : List CNICapabilities1) (e : Unit)
    (h : marshal ((lookupKV qos qosbandwidth).getD defaultBandWidth) = Except.error e) :
    psn1Loop marshal qos (c :: rest) acc = [] := by
  simp [psn1Loop, h]

/-- When the serializer succeeds, the static-table loop appends one
entry per config, each with its own singleton capability map. -/
theorem psn1Loop_ok (marshal : BandWidth → Except Unit Jval) (qos : String) (j : Jval)
    (h : marshal ((lookupKV qos qosbandwidth).getD defaultBandWidth) = Except.ok j) :
    ∀ (cfgs : List CNIConfig1) (acc : List CNICapabilities1),
      psn1Loop marshal qos cfgs acc =
        acc ++ cfgs.map (fun c => ⟨c.name, [("bandwidth", j)]⟩) := by
  intro cfgs
  induction cfgs with
  | nil => intro acc; simp [psn1Loop]
  | cons c rest ih =>
    intro acc
    simp [psn1Loop, h, ih]

/-- The embedded-table loop distributes over list append. -/
theorem psn2Loop_append (marshal : Option BandWidth → Except Unit Jval) (qc : String)
    (l1 l2 : List CNIConfig2) :
    ∀ s : LoopState, psn2Loop marshal qc (l1 ++ l2) s = psn2Loop marshal qc l2 (psn2Loop marshal qc l1 s) := by
  induction l1 with
  | nil => intro s; rfl
  | cons c rest ih => intro s; simp [psn2Loop, ih]

/-- A config whose blob is syntactically malformed is a no-op for the
embedded-table loop state. -/
theorem step2_malformed (marshal : Option BandWidth → Except Unit Jval) (qc : String)
    (s : LoopState) (c : CNIConfig2) (h : c.networkConf = NetworkConf2.malformed) :
    step2 marshal qc s c = s := by
  simp only [step2, h]
  split <;> rfl

/-- The names produced by the embedded-table loop are the accumulated
names followed by the per-config skip reading of the remaining configs:
a config failing any of the three per-config steps contributes nothing
and the recursion continues with its siblings. -/
theorem psn2Loop_names (marshal : Option BandWidth → Except Unit Jval) (qc : String)
    (cfgs : List CNIConfig2) :
    ∀ s : LoopState,
      (psn2Loop marshal qc cfgs s).names = s.names ++ namesSpec marshal qc cfgs s.qosTable := by
  induction cfgs with
  | nil => intro s; simp [psn2Loop, namesSpec]
  | cons c rest ih =>
    intro s
    by_cases hl : c.name = "cni-loopback"
    · simp [psn2Loop, namesSpec, step2, hl, ih]
    · cases hconf : c.networkConf with
      | malformed => simp [psn2Loop, namesSpec, step2, hl, hconf, ih]
      | wellFormed qf =>
        cases hm : marshal ((lookupKV qc (applyQosField s.qosTable qf)).bind CNIQoSClass.bandwidth) with
        | error e => simp [psn2Loop, namesSpec, step2, hl, hconf, hm, ih]
        | ok j => simp [psn2Loop, namesSpec, step2, hl, hconf, hm, ih]

/-- With the concrete serializer, the skip reading of the names is the
first projection of the per-config reading. -/
theorem namesSpec_eq_perConfig (qc : String) (cfgs : List CNIConfig2) :
    ∀ t : List (String × CNIQoSClass),
      namesSpec jsonMarshalOptBW qc cfgs t = (psn2PerConfigCaps qc cfgs t).map Prod.fst := by
  induction cfgs with
  | nil => intro t; rfl
  | cons c rest ih =>
    intro t
    by_cases hl : c.name = "cni-loopback"
    · simp [namesSpec, psn2PerConfigCaps, hl, ih]
    · cases hconf : c.networkConf with
      | malformed => simp [namesSpec, psn2PerConfigCaps, hl, hconf, ih]
      | wellFormed qf => simp [namesSpec, psn2PerConfigCaps, hl, hconf, jsonMarshalOptBW, ih]

/-- The loopback name is never among the names the skip reading emits. -/
theorem namesSpec_no_loopback (marshal : Option BandWidth → Except Unit Jval) (qc : String)
    (cfgs : List CNIConfig2) :
    ∀ t : List (String × CNIQoSClass),
      List.filter (fun n => n == "cni-loopback") (namesSpec marshal qc cfgs t) = [] := by
  induction cfgs with
  | nil => intro t; rfl
  | cons c rest ih =>
    intro t
    by_cases hl : c.name = "cni-loopback"
    · simp [namesSpec, hl, ih]
    · cases hconf : c.networkConf with
      | malformed => simp [namesSpec, hl, hconf, ih]
      | wellFormed qf =>
        cases hm : marshal ((lookupKV qc (applyQosField t qf)).bind CNIQoSClass.bandwidth) with
        | error e => simp [namesSpec, hl, hconf, hm, ih]
        | ok j => simp [namesSpec, List.filter_cons, hl, hconf, hm, ih]

/-- With the concrete serializer, the one shared caps map ends the loop
holding, under the bandwidth key, exactly the encoding produced for the
last appended config of the per-config reading (untouched when nothing
was appended). -/
theorem psn2Loop_caps (qc : String) (cfgs : List CNIConfig2) :
    ∀ s : LoopState,
      (psn2Loop jsonMarshalOptBW qc cfgs s).caps =
        (olast (psn2PerConfigCaps qc cfgs s.qosTable)).elim s.caps
          (fun p => insertKV "bandwidth" (some p.2) s.caps) := by
  induction cfgs with
  | nil => intro s; simp [psn2Loop, psn2PerConfigCaps, olast]
  | cons c rest ih =>
    intro s
    by_cases hl : c.name = "cni-loopback"
    · simp [psn2Loop, psn2PerConfigCaps, step2, hl, ih]
    · cases hconf : c.networkConf with
      | malformed => simp [psn2Loop, psn2PerConfigCaps, step2, hl, hconf, ih]
      | wellFormed qf =>
        have hstep : step2 jsonMarshalOptBW qc s c =
            { qosTable := applyQosField s.qosTable qf,
              caps := insertKV "bandwidth"
                (some (marshalOptBandWidth ((lookupKV qc (applyQosField s.qosTable qf)).bind CNIQoSClass.bandwidth))) s.caps,
              names := s.names ++ [c.name] } := by
          simp [step2, hl, hconf, jsonMarshalOptBW]
        simp only [psn2Loop, hstep, psn2PerConfigCaps, hl, if_false, hconf]
        rw [ih]
        rw [olast_cons]
        cases hrest : olast (psn2PerConfigCaps qc rest (applyQosField s.qosTable qf)) with
        | none => simp
        | some p => simp [insertKV_insertKV]

/-- One unfolding step of the embedded-table loop. -/
theorem psn2Loop_cons (marshal : Option BandWidth → Except Unit Jval) (qc : String)
    (c : CNIConfig2) (l : List CNIConfig2) (s : LoopState) :
    psn2Loop marshal qc (c :: l) s = psn2Loop marshal qc l (step2 marshal qc s c) := rfl

/-- C1, as stated, is false on the static-table variant: a config named
cni-loopback does appear in the returned capabilities list (its loop
has no loopback exclusion, plugin.go lines 117 to 144). -/
theorem c1_counterexample :
    "cni-loopback" ∈ List.map CNICapabilities1.name
      (PreSetupNetwork1 ⟨[], []⟩ [⟨"cni-loopback", "cfg"⟩]) := by decide

/-- C1 amended: in the embedded-table variant of PreSetupNetwork, the
config named cni-loopback never appears in the returned capabilities
list, for every pod and every config list. -/
theorem c1_amended (pod : PodSandbox) (cfgs : List CNIConfig2) :
    List.filter (fun n => n == "cni-loopback") (resultNames (PreSetupNetwork2 pod cfgs)) = [] := by
  unfold PreSetupNetwork2 PreSetupNetwork2Gen
  by_cases hq : podQosClass pod = ""
  · simp [resultNames, hq]
  · rw [if_neg hq]
    show List.filter (fun n => n == "cni-loopback")
      (psn2Loop jsonMarshalOptBW (podQosClass pod) cfgs initState).names = []
    rw [psn2Loop_names]
    simp [initState, namesSpec_no_loopback]

/-- C2: in the embedded-table variant, whenever entries are returned
they all reference the one caps map allocated before the loop (the
reply carries the single shared map next to the entry names), so after
the call every entry observes the same bandwidth payload, namely the
encoding produced for the last config that was appended, and not the
encoding resolved from each config's own embedded table (the
per-config reading psn2PerConfigCaps). -/
theorem c2_shared_caps (pod : PodSandbox) (cfgs : List CNIConfig2)
    (names : List String) (caps : List (String × Option Jval))
    (h : PreSetupNetwork2 pod cfgs = some (names, caps))
    (_h2 : 2 ≤ names.length) :
    names = (psn2PerConfigCaps (podQosClass pod) cfgs []).map Prod.fst ∧
    lookupKV "bandwidth" caps =
      (olast (psn2PerConfigCaps (podQosClass pod) cfgs [])).map (fun p => some p.2) := by
  unfold PreSetupNetwork2 PreSetupNetwork2Gen at h
  by_cases hq : podQosClass pod = ""
  · simp [hq] at h
  · rw [if_neg hq] at h
    have h' := Option.some.inj h
    have hn : (psn2Loop jsonMarshalOptBW (podQosClass pod) cfgs initState).names = names :=
      congrArg Prod.fst h'
    have hc : (psn2Loop jsonMarshalOptBW (podQosClass pod) cfgs initState).caps = caps :=
      congrArg Prod.snd h'
    constructor
    · rw [← hn, psn2Loop_names, namesSpec_eq_perConfig]
      simp [initState]
    · rw [← hc, psn2Loop_caps]
      cases hlast : olast (psn2PerConfigCaps (podQosClass pod) cfgs initState.qosTable) with
      | none => simp [hlast, initState, lookupKV] at hlast ⊢
      | some p => simp [hlast, initState, lookupKV_insertKV_self] at hlast ⊢

/-- C2 witness: two configs with different embedded tables; the shared
map ends up holding the second config's encoding, while the per-config
reading pairs each name with its own encoding. -/
theorem c2_witness :
    (["net-a", "net-b"] : List String) =
      (psn2PerConfigCaps (podQosClass ⟨[], [("net", "gold")]⟩)
        [⟨"net-a", NetworkConf2.wellFormed (QosField.table [("gold", ⟨0, some ⟨1, 2, 3, 4⟩⟩)])⟩,
         ⟨"net-b", NetworkConf2.wellFormed (QosField.table [("gold", ⟨0, some ⟨5, 6, 7, 8⟩⟩)])⟩] []).map Prod.fst ∧
    lookupKV "bandwidth" [("bandwidth", some (marshalBandWidth ⟨5, 6, 7, 8⟩))] =
      (olast (psn2PerConfigCaps (podQosClass ⟨[], [("net", "gold")]⟩)
        [⟨"net-a", NetworkConf2.wellFormed (QosField.table [("gold", ⟨0, some ⟨1, 2, 3, 4⟩⟩)])⟩,
         ⟨"net-b", NetworkConf2.wellFormed (QosField.table [("gold", ⟨0, some ⟨5, 6, 7, 8⟩⟩)])⟩] [])).map
        (fun p => some p.2) :=
  c2_shared_caps ⟨[], [("net", "gold")]⟩
    [⟨"net-a", NetworkConf2.wellFormed (QosField.table [("gold", ⟨0, some ⟨1, 2, 3, 4⟩⟩)])⟩,
     ⟨"net-b", NetworkConf2.wellFormed (QosField.table [("gold", ⟨0, some ⟨5, 6, 7, 8⟩⟩)])⟩]
    ["net-a", "net-b"] [("bandwidth", some (marshalBandWidth ⟨5, 6, 7, 8⟩))] rfl (by decide)

/-- C3, as stated, is false on the code: a config whose embedded table
has no entry for the pod class is not skipped; the zero-value lookup
yields a nil bandwidth pointer, json.Marshal of nil succeeds with the
null encoding, and an entry for the config is appended. -/
theorem c3_counterexample :
    PreSetupNetwork2 ⟨[], [("net", "gold")]⟩
      [⟨"eth0", NetworkConf2.wellFormed (QosField.table [("fast", ⟨0, some ⟨1, 2, 0, 0⟩⟩)])⟩] =
      some (["eth0"], [("bandwidth", some Jval.null)]) := rfl

/-- C3 amended: for every config whose accumulated embedded QoS table
has no bandwidth entry for the pod's declared class, a capability entry
for that config IS emitted, its step writing the null encoding into the
shared capability map; no error is returned (the reply stays a
successful one). -/
theorem c3_amended (pod : PodSandbox) (pre suf : List CNIConfig2) (c : CNIConfig2) (qf : QosField)
    (hq : podQosClass pod ≠ "")
    (hl : c.name ≠ "cni-loopback")
    (hw : c.networkConf = NetworkConf2.wellFormed qf)
    (hmiss : (lookupKV (podQosClass pod)
        (applyQosField (psn2Loop jsonMarshalOptBW (podQosClass pod) pre initState).qosTable qf)).bind
        CNIQoSClass.bandwidth = none) :
    c.name ∈ resultNames (PreSetupNetwork2 pod (pre ++ c :: suf)) ∧
    lookupKV "bandwidth"
      (step2 jsonMarshalOptBW (podQosClass pod)
        (psn2Loop jsonMarshalOptBW (podQosClass pod) pre initState) c).caps =
      some (some Jval.null) := by
  have hstep : step2 jsonMarshalOptBW (podQosClass pod)
      (psn2Loop jsonMarshalOptBW (podQosClass pod) pre initState) c =
      { qosTable := applyQosField (psn2Loop jsonMarshalOptBW (podQosClass pod) pre initState).qosTable qf,
        caps := insertKV "bandwidth" (some Jval.null)
          (psn2Loop jsonMarshalOptBW (podQosClass pod) pre initState).caps,
        names := (psn2Loop jsonMarshalOptBW (podQosClass pod) pre initState).names ++ [c.name] } := by
    simp [step2, hl, hw, hmiss, jsonMarshalOptBW, marshalOptBandWidth]
  constructor
  · unfold PreSetupNetwork2 PreSetupNetwork2Gen
    rw [if_neg hq]
    show c.name ∈ (psn2Loop jsonMarshalOptBW (podQosClass pod) (pre ++ c :: suf) initState).names
    rw [psn2Loop_append, psn2Loop_cons, psn2Loop_names, hstep]
    simp
  · rw [hstep]
    exact lookupKV_insertKV_self _ _ _

/-- C3 amended witness: the single config of the counterexample input,
emitted with the null bandwidth encoding. -/
theorem c3_amended_witness :
    "eth1" ∈ resultNames (PreSetupNetwork2 ⟨[], [("net", "gold")]⟩
      ([] ++ ⟨"eth1", NetworkConf2.wellFormed (QosField.table [("fast", ⟨0, some ⟨1, 2, 0, 0⟩⟩)])⟩ :: [])) ∧
    lookupKV "bandwidth"
      (step2 jsonMarshalOptBW (podQosClass ⟨[], [("net", "gold")]⟩)
        (psn2Loop jsonMarshalOptBW (podQosClass ⟨[], [("net", "gold")]⟩) [] initState)
        ⟨"eth1", NetworkConf2.wellFormed (QosField.table [("fast", ⟨0, some ⟨1, 2, 0, 0⟩⟩)])⟩).caps =
      some (some Jval.null) :=
  c3_amended ⟨[], [("net", "gold")]⟩ [] []
    ⟨"eth1", NetworkConf2.wellFormed (QosField.table [("fast", ⟨0, some ⟨1, 2, 0, 0⟩⟩)])⟩
    (QosField.table [("fast", ⟨0, some ⟨1, 2, 0, 0⟩⟩)]) (by decide) (by decide) rfl rfl

/-- C4: serialization failures are isolated per config.  In the
embedded-table variant the emitted entry names equal, for every
serializer, the per-config skip reading namesSpec, under which a config
whose bandwidth fails to serialize contributes nothing while every
sibling is processed normally.  In the static-table variant the
returned list equals, for every serializer, the per-config skip
reading (a filterMap dropping exactly the failing configs): its early
return on a marshal error is observationally the same, because the one
resolved bandwidth of the call makes the serializer fail uniformly. -/
theorem c4_error_isolation :
    (∀ (marshal : Option BandWidth → Except Unit Jval) (pod : PodSandbox) (cfgs : List CNIConfig2),
      resultNames (PreSetupNetwork2Gen marshal pod cfgs) =
        if podQosClass pod = "" then [] else namesSpec marshal (podQosClass pod) cfgs []) ∧
    (∀ (marshal : BandWidth → Except Unit Jval) (pod : PodSandbox) (cfgs : List CNIConfig1),
      PreSetupNetwork1Gen marshal pod cfgs =
        cfgs.filterMap fun c =>
          (marshal ((lookupKV (resolvedQoS1 pod) qosbandwidth).getD defaultBandWidth)).toOption.map
            fun j => ⟨c.name, [("bandwidth", j)]⟩) := by
  constructor
  · intro marshal pod cfgs
    by_cases hq : podQosClass pod = ""
    · simp [resultNames, PreSetupNetwork2Gen, hq]
    · rw [if_neg hq]
      simp only [PreSetupNetwork2Gen, if_neg hq, resultNames, Option.map_some', Option.getD_some]
      rw [psn2Loop_names]
      simp [initState]
  · intro marshal pod cfgs
    unfold PreSetupNetwork1Gen
    cases hm : marshal ((lookupKV (resolvedQoS1 pod) qosbandwidth).getD defaultBandWidth) with
    | error e =>
      cases cfgs with
      | nil => simp [psn1Loop]
      | cons c rest =>
        rw [psn1Loop_error _ _ _ _ _ _ hm]
        simp [hm, Except.toOption]
    | ok j =>
      rw [psn1Loop_ok _ _ _ hm]
      simp only [hm, Except.toOption, List.nil_append]
      exact (congrFun (List.filterMap_eq_map
        (fun c : CNIConfig1 => (⟨c.name, [("bandwidth", j)]⟩ : CNICapabilities1))) cfgs).symm

/-- C5: with the static table, a pod resolving to the fast class gets,
for every non-loopback config of the call, a returned entry named after
the config whose bandwidth payload decodes to ingress rate 1000000 and
ingress burst 1500000 (the fixed fast values, egress zero). -/
theorem c5_fast_static (pod : PodSandbox) (cfgs : List CNIConfig1) (c : CNIConfig1)
    (hq : resolvedQoS1 pod = "fast") (hc : c ∈ cfgs) (_hl : c.name ≠ "cni-loopback") :
    ∃ e, e ∈ PreSetupNetwork1 pod cfgs ∧ e.name = c.name ∧
      (lookupKV "bandwidth" e.capabilities).bind unmarshalBandWidth =
        some ⟨1000000, 1500000, 0, 0⟩ := by
  refine ⟨⟨c.name, [("bandwidth", marshalBandWidth ⟨1000000, 1500000, 0, 0⟩)]⟩, ?_, rfl, rfl⟩
  unfold PreSetupNetwork1 PreSetupNetwork1Gen
  rw [hq]
  rw [psn1Loop_ok jsonMarshalBW "fast" (marshalBandWidth ⟨1000000, 1500000, 0, 0⟩) rfl]
  simp only [List.nil_append]
  exact List.mem_map.mpr ⟨c, hc, rfl⟩

/-- C5 witness: a fast-annotated pod with one eth0 config. -/
theorem c5_witness :
    ∃ e, e ∈ PreSetupNetwork1 ⟨[], [("net", "fast")]⟩ [⟨"eth0", "cfg"⟩] ∧
      e.name = "eth0" ∧
      (lookupKV "bandwidth" e.capabilities).bind unmarshalBandWidth =
        some ⟨1000000, 1500000, 0, 0⟩ :=
  c5_fast_static ⟨[], [("net", "fast")]⟩ [⟨"eth0", "cfg"⟩] ⟨"eth0", "cfg"⟩ rfl
    (by decide) (by decide)

/-- C6: a config whose blob fails to parse is skipped and changes
nothing for its siblings: the whole call returns exactly what the call
without that config returns (the validity pre-check of json.Unmarshal
leaves the reused qosconfig untouched on a syntax error). -/
theorem c6_malformed_isolation (pod : PodSandbox) (pre suf : List CNIConfig2) (c : CNIConfig2)
    (h : c.networkConf = NetworkConf2.malformed) :
    PreSetupNetwork2 pod (pre ++ c :: suf) = PreSetupNetwork2 pod (pre ++ suf) := by
  unfold PreSetupNetwork2 PreSetupNetwork2Gen
  by_cases hq : podQosClass pod = ""
  · simp [hq]
  · have hloop :
        psn2Loop jsonMarshalOptBW (podQosClass pod) (pre ++ c :: suf) initState =
        psn2Loop jsonMarshalOptBW (podQosClass pod) (pre ++ suf) initState := by
      rw [psn2Loop_append, psn2Loop_append, psn2Loop_cons, step2_malformed _ _ _ _ h]
    rw [if_neg hq, if_neg hq, hloop]

/-- C6 witness: a malformed middle config between two valid siblings is
dropped with no effect on the reply. -/
theorem c6_witness :
    PreSetupNetwork2 ⟨[], [("net", "gold")]⟩
      [⟨"eth0", NetworkConf2.wellFormed (QosField.table [("gold", ⟨0, some ⟨7, 8, 0, 0⟩⟩)])⟩,
       ⟨"bad", NetworkConf2.malformed⟩,
       ⟨"eth1", NetworkConf2.wellFormed (QosField.table [("gold", ⟨0, some ⟨9, 10, 0, 0⟩⟩)])⟩] =
    PreSetupNetwork2 ⟨[], [("net", "gold")]⟩
      [⟨"eth0", NetworkConf2.wellFormed (QosField.table [("gold", ⟨0, some ⟨7, 8, 0, 0⟩⟩)])⟩,
       ⟨"eth1", NetworkConf2.wellFormed (QosField.table [("gold", ⟨0, some ⟨9, 10, 0, 0⟩⟩)])⟩] :=
  c6_malformed_isolation ⟨[], [("net", "gold")]⟩
    [⟨"eth0", NetworkConf2.wellFormed (QosField.table [("gold", ⟨0, some ⟨7, 8, 0, 0⟩⟩)])⟩]
    [⟨"eth1", NetworkConf2.wellFormed (QosField.table [("gold", ⟨0, some ⟨9, 10, 0, 0⟩⟩)])⟩]
    ⟨"bad", NetworkConf2.malformed⟩ rfl

/-- C7, as stated, is false on the embedded-table variant: its class
resolution reads only the annotation map (plugin.go line 317), so a pod
declaring a class through a label alone resolves no class and the call
returns nil, although its one config's table has a matching entry. -/
theorem c7_counterexample :
    PreSetupNetwork2 ⟨[("net", "fast")], []⟩
      [⟨"eth0", NetworkConf2.wellFormed (QosField.table [("fast", ⟨0, some ⟨1000000, 1500000, 0, 0⟩⟩)])⟩] =
      none := rfl

/-- C7 amended: in the static-table variant the class is taken from the
label map when present and an annotation with the reserved key
overrides it (the annotation's class wins whenever both maps declare
one); in the embedded-table variant only the annotation map is
consulted and the label map is ignored entirely. -/
theorem c7_amended :
    (∀ (pod : PodSandbox) (v : String), (pod.labels.map Prod.fst).Nodup →
      lookupKV QoSResourceNet pod.labels = some v →
      lookupKV QoSResourceNet pod.annos = none → resolvedQoS1 pod = v) ∧
    (∀ (pod : PodSandbox) (w : String), (pod.annos.map Prod.fst).Nodup →
      lookupKV QoSResourceNet pod.annos = some w → resolvedQoS1 pod = w) ∧
    (∀ (ls ls' an : List (String × String)) (cfgs : List CNIConfig2),
      PreSetupNetwork2 ⟨ls, an⟩ cfgs = PreSetupNetwork2 ⟨ls', an⟩ cfgs) := by
  refine ⟨?_, ?_, ?_⟩
  · intro pod v hnd hl ha
    calc resolvedQoS1 pod = scanQoS pod.labels "" := scanQoS_of_lookup_none pod.annos _ ha
      _ = v := scanQoS_of_lookup_some pod.labels "" v hnd hl
  · intro pod w hnd ha
    exact scanQoS_of_lookup_some pod.annos _ w hnd ha
  · intro ls ls' an cfgs
    rfl

/-- C7 amended witness: a label alone is honored by the static-table
variant, and an annotation overrides a label there. -/
theorem c7_witness :
    resolvedQoS1 ⟨[("net", "slow")], []⟩ = "slow" ∧
    resolvedQoS1 ⟨[("net", "slow")], [("net", "fast")]⟩ = "fast" := by
  constructor
  · exact c7_amended.1 ⟨[("net", "slow")], []⟩ "slow" (by decide) rfl rfl
  · exact c7_amended.2.1 ⟨[("net", "slow")], [("net", "fast")]⟩ "fast" (by decide) rfl

/-- C8: a pod declaring no class in either map gets one uniform
fallback per call: the static-table variant emits the fixed default
bandwidth for every config of the call, and the embedded-table variant
emits no capability at all (nil reply); neither mixes policies within
one call. -/
theorem c8_no_class_uniform (pod : PodSandbox) (cfgs1 : List CNIConfig1) (cfgs2 : List CNIConfig2)
    (hl : lookupKV QoSResourceNet pod.labels = none)
    (ha : lookupKV QoSResourceNet pod.annos = none) :
    PreSetupNetwork1 pod cfgs1 =
      cfgs1.map (fun c => ⟨c.name, [("bandwidth", marshalBandWidth defaultBandWidth)]⟩) ∧
    PreSetupNetwork2 pod cfgs2 = none := by
  have hq : resolvedQoS1 pod = "" := by
    unfold resolvedQoS1
    rw [scanQoS_of_lookup_none _ _ ha, scanQoS_of_lookup_none _ _ hl]
  constructor
  · unfold PreSetupNetwork1 PreSetupNetwork1Gen
    rw [hq]
    rw [psn1Loop_ok jsonMarshalBW "" (marshalBandWidth defaultBandWidth) rfl]
    simp
  · simp [PreSetupNetwork2, PreSetupNetwork2Gen, podQosClass, ha]

/-- C8 witness: a pod with an unrelated label only. -/
theorem c8_witness :
    PreSetupNetwork1 ⟨[("app", "db")], []⟩ [⟨"eth0", "cfg"⟩] =
      [⟨"eth0", [("bandwidth", marshalBandWidth defaultBandWidth)]⟩] ∧
    PreSetupNetwork2 ⟨[("app", "db")], []⟩ [⟨"eth0", NetworkConf2.wellFormed QosField.absent⟩] = none := by
  have h := c8_no_class_uniform ⟨[("app", "db")], []⟩ [⟨"eth0", "cfg"⟩]
    [⟨"eth0", NetworkConf2.wellFormed QosField.absent⟩] rfl rfl
  exact ⟨by simpa using h.1, h.2⟩

/-- C9: Configure returns an error exactly when the blob is non-empty
and fails to parse; an empty or well-formed blob yields event mask 0
and no error, and keys other than the recognized one are ignored by
the decode. -/
theorem c9_configure (blob : ConfigBlob) (c0 : GoConfig) :
    (Configure blob c0 = Except.error () ↔ blob = ConfigBlob.nonEmpty (Except.error ())) ∧
    (blob = ConfigBlob.emptyStr → Configure blob c0 = Except.ok (0, c0)) ∧
    (∀ kvs, blob = ConfigBlob.nonEmpty (Except.ok kvs) →
      Configure blob c0 = Except.ok (0, decodeConfig kvs c0)) ∧
    (∀ kvs, decodeConfig kvs c0 = decodeConfig (kvs.filter fun kv => kv.1 == "cfgParam1") c0) := by
  refine ⟨?_, ?_, ?_, ?_⟩
  · constructor
    · intro h
      cases blob with
      | emptyStr => simp [Configure] at h
      | nonEmpty doc =>
        cases doc with
        | error e => rfl
        | ok kvs => simp [Configure] at h
    · intro h; subst h; rfl
  · intro h; subst h; rfl
  · intro kvs h; subst h; rfl
  · intro kvs
    simp [decodeConfig, lookupKV_filter]

/-- C9 witness: a well-formed blob with one unknown key decodes to the
recognized key's value with mask 0, and an unparseable blob errors. -/
theorem c9_witness :
    Configure (ConfigBlob.nonEmpty (Except.ok [("other", "y"), ("cfgParam1", "x")])) ⟨""⟩ =
      Except.ok (0, decodeConfig [("other", "y"), ("cfgParam1", "x")] ⟨""⟩) ∧
    Configure (ConfigBlob.nonEmpty (Except.error ())) ⟨""⟩ = Except.error () := by
  constructor
  · exact (c9_configure (ConfigBlob.nonEmpty (Except.ok [("other", "y"), ("cfgParam1", "x")])) ⟨""⟩).2.2.1 _ rfl
  · exact (c9_configure (ConfigBlob.nonEmpty (Except.error ())) ⟨""⟩).1.mpr rfl

/-- C10: encoding a BandWidth into the bandwidth capability payload and
then decoding that payload reproduces the original four numeric fields
exactly. -/
theorem c10_roundtrip (b : BandWidth) :
    unmarshalBandWidth (marshalBandWidth b) = some b := rfl

end SetupNetwork
